import Mathlib

/-!
Verification of the HS300-Agent dashboard view
(src/frontend/src/pages/data/index.vue), shallowly embedded in Lean.

Conventions of the embedding:
* JS numbers are modelled as rationals (`Rat`); floating-point rounding is
  abstracted away, as the spec speaks of exact arithmetic.
* A possibly-`undefined` field is an `Option`.
* A value pushed into an ECharts series data array is a `JSVal`
  (a string or `null`), since the code pushes `toFixed(2)` strings and the
  adjacent comment speaks of `null` points.
* A `fetch` call is modelled by its outcome `FetchResult`: an HTTP-ok
  response with parsed JSON payload, a non-ok HTTP status (the code throws
  `HTTP error! status: ...` for it), or a network/parse error carrying its
  message.
* The component's reactive refs are gathered in `PageState`; each async
  handler becomes a state-transition function taking the fetch outcome as
  an explicit argument.
-/

namespace DataPage

attribute [local semireducible] Rat.mul Rat.add Rat.inv Rat.sub

/-- A JS value pushed into an ECharts series data array: a string
(the code pushes results of `toFixed(2)` and the literal `'0'`) or `null`
(what the comment at line 297 claims is used for missing dates). -/
inductive JSVal where
  | str (s : String)
  | null
deriving DecidableEq, Repr

/-- One record of a per-stock trend series, `{date, close, change_percent}`;
`close` and `change_percent` may be absent (`undefined`), modelled as
`none`. -/
structure TrendRecord where
  date : String
  close : Option Rat
  change_percent : Option Rat
deriving DecidableEq, Repr

/-- The `stock_trends` object of a trend response: a JS object mapping
stock code to its record array, modelled as an association list. -/
abbrev StockTrends := List (String × List TrendRecord)

/-- One row of the paginated industry analysis (`IndustrySummary` of the
spec data model): industry name, stock count, average change, average
volatility. -/
structure IndustrySummary where
  industry : String
  stock_count : Nat
  avg_change : Rat
  avg_volatility : Rat
deriving DecidableEq, Repr

/-- Payload of the per-industry trend endpoint, as used by the view:
`industry`, `stock_count` and the `stock_trends` object; any of them may be
absent. -/
structure TrendResp where
  industry : Option String
  stock_count : Option Nat
  stock_trends : Option StockTrends
deriving DecidableEq, Repr

/-- Outcome of one `fetch` call: an HTTP-ok response with parsed payload, a
non-ok HTTP status, or a network/parse error with its message. -/
inductive FetchResult (α : Type) where
  | ok (payload : α)
  | httpError (status : Nat)
  | netError (msg : String)
deriving DecidableEq, Repr

/-- The `err.message` a failed fetch produces: the code throws
`new Error("HTTP error! status: " + status)` on a non-ok response, and a
network error carries its own message. -/
def FetchResult.errMsg {α : Type} : FetchResult α → Option String
  | .ok _ => none
  | .httpError s => some ("HTTP error! status: " ++ toString s)
  | .netError m => some m

/-- Whether a fetch outcome is a failure (non-ok status or thrown error). -/
def FetchResult.isFailure {α : Type} : FetchResult α → Bool
  | .ok _ => false
  | _ => true

/-- The change a stock contributes for a date in `updateIndustryChart`
(lines 285-289): `stockData.find(item => item.date === date)` picks the
first record of the stock with that date, and its `change_percent` counts
only when it is defined (`!== undefined`). -/
def dateContrib (stockData : List TrendRecord) (date : String) : Option Rat :=
  match stockData.find? (fun r => r.date == date) with
  | some r => r.change_percent
  | none => none

/-- The `totalChange` / `count` accumulation of `updateIndustryChart` for
one date (lines 280-290): fold over `Object.values(trend.stock_trends)`,
adding `change_percent` and incrementing `count` exactly when the record
found for the date has it defined. -/
def sumCountAt (sts : StockTrends) (date : String) : Rat × Nat :=
  sts.foldl
    (fun acc s =>
      match dateContrib s.2 date with
      | some cp => (acc.1 + cp, acc.2 + 1)
      | none => acc)
    (0, 0)

/-- The changes of exactly those stocks that contribute for a date: the
defined `change_percent` of the record `find` returns for the date, one per
contributing stock. -/
def contributingChanges (sts : StockTrends) (date : String) : List Rat :=
  sts.filterMap (fun s => dateContrib s.2 date)

/-- JS `x.toFixed(2)` modelled on rationals: the nearest hundredth, ties
resolved to the larger candidate as the ECMAScript spec prescribes — that
is the integer `⌊q * 100 + 1/2⌋`, computed here by Euclidean division —
rendered with exactly two decimals. -/
def toFixed2 (q : Rat) : String :=
  let n : Int := Int.ediv (200 * q.num + (q.den : Int)) (2 * (q.den : Int))
  let sign := if n < 0 then "-" else ""
  let m := n.natAbs
  sign ++ toString (m / 100) ++ "." ++
    (if m % 100 < 10 then "0" else "") ++ toString (m % 100)

/-- The value `updateIndustryChart` pushes into `industryData` for one date
(lines 292-301): the two-decimal average `(totalChange / count).toFixed(2)`
when `count > 0`, and otherwise the string literal `'0'` (despite the
adjacent comment speaking of null). -/
def plottedValue (sts : StockTrends) (date : String) : JSVal :=
  let tc := (sumCountAt sts date).1
  let n := (sumCountAt sts date).2
  if 0 < n then JSVal.str (toFixed2 (tc / (n : Rat))) else JSVal.str "0"

/-- The real-data series of `updateIndustryChart` (lines 276-302): one
pushed value per date of the displayed window. -/
def realSeriesData (sts : StockTrends) (recentDates : List String) : List JSVal :=
  recentDates.map (plottedValue sts)

/-- The JS sort comparator of lines 219-221 and 239-241,
`(a, b) => filter === top3 ? b.avg_change - a.avg_change : a.avg_change - b.avg_change`,
expressed as the boolean order it induces (comparator result at most 0). -/
def cmpLE (filterType : String) (a b : IndustrySummary) : Bool :=
  if filterType = "top3" then decide (b.avg_change - a.avg_change ≤ 0)
  else decide (a.avg_change - b.avg_change ≤ 0)

instance (ft : String) : IsTrans IndustrySummary (fun a b => cmpLE ft a b = true) where
  trans := by
    intro a b c hab hbc
    by_cases h : ft = "top3" <;> simp [cmpLE, h] at hab hbc ⊢ <;> linarith

instance (ft : String) : IsTotal IndustrySummary (fun a b => cmpLE ft a b = true) where
  total := by
    intro a b
    by_cases h : ft = "top3" <;> simp [cmpLE, h] <;>
      rcases le_total a.avg_change b.avg_change with hle | hle <;> tauto

/-- The sorted copy `[...industryAnalysis].sort(comparator)` of lines
239-241: a stable sort consistent with the comparator, modelled by
insertion sort. -/
def sortedCopy (filterType : String) (l : List IndustrySummary) : List IndustrySummary :=
  List.insertionSort (fun a b => cmpLE filterType a b = true) l

/-- The industries `updateIndustryChart` charts (lines 234-245): for the
top3 and bottom3 filters the first 3 elements of the sorted copy of the
current page, otherwise the whole current page. -/
def industriesToShow (filterType : String) (industryAnalysis : List IndustrySummary) :
    List IndustrySummary :=
  if filterType = "top3" ∨ filterType = "bottom3" then
    (sortedCopy filterType industryAnalysis).take 3
  else industryAnalysis

/-- `getAllIndustryTrends` (lines 136-170) as a pure function of the fetch
outcomes: one trend request per industry of the current page, each wrapped
in its own catch that turns a failure into null; `Promise.all` joins them,
and `trendsData` keeps exactly the non-null responses that carry a
`stock_trends` field, keyed by the original industry name, with the
`industry` field overwritten by that name. -/
def getAllIndustryTrends (industryAnalysis : List IndustrySummary)
    (fetchTrend : String → FetchResult TrendResp) : List (String × TrendResp) :=
  let industries := industryAnalysis.map (·.industry)
  let trends : List (Option TrendResp) := industries.map (fun ind =>
    match fetchTrend ind with
    | .ok t => some t
    | _ => none)
  (industries.zip trends).foldl
    (fun acc p =>
      match p.2 with
      | some tr =>
          if tr.stock_trends.isSome then acc ++ [(p.1, { tr with industry := some p.1 })]
          else acc
      | none => acc)
    []

/-- Whether the trend fetch for an industry succeeds and its payload has a
`stock_trends` field. -/
def trendOk (fetchTrend : String → FetchResult TrendResp) (ind : String) : Bool :=
  match fetchTrend ind with
  | .ok t => t.stock_trends.isSome
  | _ => false

/-- Payload of the paginated industry-analysis endpoint: the `data` field
when it is an array (`none` models a missing or non-array `data`), and the
optional numeric `total`. -/
structure AnalysisResp where
  data : Option (List IndustrySummary)
  total : Option Nat
deriving DecidableEq, Repr

/-- JS `a || b` on an optional natural number: a present truthy (nonzero)
value wins, otherwise the default. -/
def jsOrNat (a : Option Nat) (b : Nat) : Nat :=
  match a with
  | some x => if x = 0 then b else x
  | none => b

/-- JS `a || b` on an optional number (0 and undefined are falsy). -/
def jsOrRat (a : Option Rat) (b : Rat) : Rat :=
  match a with
  | some x => if x = 0 then b else x
  | none => b

/-- JS `a || b` on an optional string (the empty string is falsy). -/
def jsOrStr (a : Option String) (b : String) : String :=
  match a with
  | some s => if s = "" then b else s
  | none => b

/-- The object shown in the analysis panel: a failed analysis carries
`error`, a successful LLM analysis carries its text. -/
structure AnalysisResult where
  industry : String
  error : Option String
  analysis : Option String
deriving DecidableEq, Repr

/-- The reactive refs of the view that the claims speak about. -/
structure PageState where
  loading : Bool
  error : Option String
  industryAnalysis : List IndustrySummary
  totalIndustries : Nat
  industryTrend : Option TrendResp
  allIndustryTrends : List (String × TrendResp)
  industryAnalysisResult : Option AnalysisResult
  analyzingIndustry : String
  analysisLoading : Bool
  hotmapLoading : Bool
deriving DecidableEq, Repr

/-- `getIndustryAnalysis` (lines 46-76) as a state transition on the fetch
outcome: on success `industryAnalysis` gets `data.data` when it is an
array and `[]` otherwise, and `totalIndustries` gets `data.total || 0`; on
failure `error` gets the message, `industryAnalysis` is reset to `[]` and
`totalIndustries` to 0; `loading` ends false either way. -/
def getIndustryAnalysisStep (st : PageState) (r : FetchResult AnalysisResp) : PageState :=
  match r with
  | .ok resp =>
      { st with
        loading := false, error := none,
        industryAnalysis := (match resp.data with | some l => l | none => []),
        totalIndustries := jsOrNat resp.total 0 }
  | .httpError s =>
      { st with
        loading := false,
        error := some ("获取行业分析失败: HTTP error! status: " ++ toString s),
        industryAnalysis := [], totalIndustries := 0 }
  | .netError m =>
      { st with
        loading := false,
        error := some ("获取行业分析失败: " ++ m),
        industryAnalysis := [], totalIndustries := 0 }

/-- Number of rows of the el-table bound to `industryAnalysis`
(line 1271): one row per element of the list. -/
def tableRows (st : PageState) : Nat :=
  st.industryAnalysis.length

/-- `getIndustryTrend` (lines 112-129) as a state transition. -/
def getIndustryTrendStep (st : PageState) (r : FetchResult TrendResp) : PageState :=
  match r with
  | .ok t => { st with
      loading := false, error := none, industryTrend := some t }
  | .httpError s =>
      { st with
        loading := false,
        error := some ("获取行业趋势失败: HTTP error! status: " ++ toString s) }
  | .netError m =>
      { st with loading := false, error := some ("获取行业趋势失败: " ++ m) }

/-- `getAllIndustryTrends` as a state transition (lines 132-183): every
per-industry failure is caught inside its own promise (a console.error,
then null), so the outer catch never fires for fetch failures and `error`
keeps the null assigned on entry. -/
def getAllIndustryTrendsStep (st : PageState)
    (fetchTrend : String → FetchResult TrendResp) : PageState :=
  if 0 < st.industryAnalysis.length then
    { st with
      loading := false, error := none,
      allIndustryTrends := getAllIndustryTrends st.industryAnalysis fetchTrend }
  else { st with loading := false, error := none }

/-- `analyzeIndustryWithLLM` (lines 483-504) as a state transition: the
result panel gets the payload on success and an object with the error
message on failure; `error` itself is never written. -/
def analyzeIndustryWithLLMStep (st : PageState) (industry : String)
    (r : FetchResult AnalysisResult) : PageState :=
  match r with
  | .ok d =>
      { st with
        analysisLoading := false, analyzingIndustry := industry,
        industryAnalysisResult := some d }
  | .httpError s =>
      { st with
        analysisLoading := false, analyzingIndustry := industry,
        industryAnalysisResult :=
          some ⟨industry, some ("大模型分析失败: HTTP error! status: " ++ toString s), none⟩ }
  | .netError m =>
      { st with
        analysisLoading := false, analyzingIndustry := industry,
        industryAnalysisResult := some ⟨industry, some ("大模型分析失败: " ++ m), none⟩ }

/-- The try block of `analyzeIndustry` after its guard (lines 400-470):
the code computes per-date statistics of the industry and then builds the
result object, whose `summary` field applies `generateIndustrySummary` to
the bare identifier `positiveRate` (line 469). That identifier is not
bound anywhere in the function's scope — it occurs only as a property name
of the object literal being built and as a parameter of
`generateIndustrySummary` itself — so evaluating it raises a
ReferenceError and the block never produces a value. The statistics are
dead values discarded by the throw and are therefore not part of the
model. -/
def analyzeIndustryTryBlock (_industry : String) (_sts : StockTrends) :
    Except String AnalysisResult :=
  Except.error "ReferenceError: positiveRate is not defined"

/-- `analyzeIndustry` (lines 385-480) as a state transition: the guard
answers with the no-data message when the industry has no entry with
`stock_trends` in `allIndustryTrends`; otherwise the try block runs and
its ReferenceError is caught, storing the failure object; the finally
clause resets `analysisLoading` in every path. -/
def analyzeIndustryStep (st : PageState) (industry : String) : PageState :=
  match (st.allIndustryTrends.lookup industry).bind (fun t => t.stock_trends) with
  | none =>
      { st with
        analysisLoading := false, analyzingIndustry := industry,
        industryAnalysisResult := some ⟨industry, some "无法获取该行业的趋势数据", none⟩ }
  | some sts =>
      match analyzeIndustryTryBlock industry sts with
      | .ok res =>
          { st with
            analysisLoading := false, analyzingIndustry := industry,
            industryAnalysisResult := some res }
      | .error _ =>
          { st with
            analysisLoading := false, analyzingIndustry := industry,
            industryAnalysisResult := some ⟨industry, some "分析行业失败", none⟩ }

/-- Typed view of one stock object of the hierarchy payload. The converter
reads it only through `||` fallback chains, where an absent field and 0
are both falsy. A stock-level `value` array field is modelled as absent
(undefined, hence falsy in the chain and undefined under `?.[0]`). -/
structure ApiStock where
  name : Option String
  stock_name : Option String
  market_cap : Option Rat
  marketCap : Option Rat
  increase : Option Rat
  change : Option Rat
deriving DecidableEq, Repr

/-- Typed view of one industry object of the hierarchy payload, with the
same conventions as `ApiStock`. -/
structure ApiIndustry where
  name : Option String
  industry : Option String
  market_cap : Option Rat
  marketCap : Option Rat
  stock_count : Option Rat
  total_stock_count : Option Rat
  stockCount : Option Rat
  increase : Option Rat
  change : Option Rat
  children : Option (List ApiStock)
  stocks : Option (List ApiStock)
deriving DecidableEq, Repr

/-- A child (stock) node of the treemap data: name and a value array. -/
structure ChildNode where
  name : String
  value : List Rat
deriving DecidableEq, Repr

/-- An industry node of the treemap data: name, value array, stock count
and stock children (initialised to the empty array by the converter, so it
is always an array). -/
structure IndustryNode where
  name : String
  value : List Rat
  stock_count : Rat
  children : List ChildNode
deriving DecidableEq, Repr

/-- The JSON payload of the hierarchy endpoint as classified by
`getIndustryStockHierarchy` (lines 617-634): an object with an array
`data` field, a bare array, any other non-null object, or a non-object
value. -/
inductive HierPayload where
  | dataField (l : List ApiIndustry)
  | rawArray (l : List ApiIndustry)
  | singleObject (a : ApiIndustry)
  | primitive
deriving DecidableEq, Repr

/-- `getIndustryStockHierarchy` (lines 608-645): unwrap the payload into
an industry array; a non-ok status throws and any thrown error is caught
locally (console.error only) and turned into the empty array. -/
def getIndustryStockHierarchy (r : FetchResult HierPayload) : List ApiIndustry :=
  match r with
  | .ok (.dataField l) => l
  | .ok (.rawArray l) => l
  | .ok (.singleObject a) => [a]
  | .ok .primitive => []
  | .httpError _ => []
  | .netError _ => []

/-- Stock conversion of `convertApiDataToChartFormat` (lines 676-704, the
same literal for the `children` and the legacy `stocks` shape): name with
fallbacks, then the 3-tuple [market cap, placeholder 1, change]. -/
def convertStock (s : ApiStock) : ChildNode :=
  { name := jsOrStr s.name (jsOrStr s.stock_name "未知股票"),
    value := [jsOrRat s.market_cap (jsOrRat s.marketCap 0), 1,
              jsOrRat s.increase (jsOrRat s.change 0)] }

/-- Industry conversion of `convertApiDataToChartFormat` (lines 656-709):
name with fallbacks, the 3-tuple [market cap, stock count, change], the
`stock_count` field, and children taken from `children` when it is an
array, else from the legacy `stocks` field, else left as the initial empty
array. -/
def convertIndustry (ind : ApiIndustry) : IndustryNode :=
  { name := jsOrStr ind.name (jsOrStr ind.industry "未知行业"),
    value := [jsOrRat ind.market_cap (jsOrRat ind.marketCap 0),
              jsOrRat ind.stock_count (jsOrRat ind.total_stock_count (jsOrRat ind.stockCount 0)),
              jsOrRat ind.increase (jsOrRat ind.change 0)],
    stock_count := jsOrRat ind.stock_count (jsOrRat ind.total_stock_count (jsOrRat ind.stockCount 0)),
    children :=
      (match ind.children with
       | some cs => cs.map convertStock
       | none =>
         match ind.stocks with
         | some ss => ss.map convertStock
         | none => []) }

/-- `convertApiDataToChartFormat` (lines 648-715). -/
def convertApiDataToChartFormat (apiData : List ApiIndustry) : List IndustryNode :=
  apiData.map convertIndustry

/-- The embedded static mock treemap data (lines 775-806, repeated
verbatim in the catch branch at lines 992-1023): three industries with
three stocks each. -/
def mockData : List IndustryNode :=
  [{ name := "银行", value := [100000, 95000, 1/2], stock_count := 3,
     children := [⟨"平安银行", [3000, 2800, 6/5]⟩, ⟨"招商银行", [5000, 4800, 4/5]⟩,
                  ⟨"工商银行", [8000, 7900, 3/10]⟩] },
   { name := "医药生物", value := [80000, 75000, 6/5], stock_count := 3,
     children := [⟨"恒瑞医药", [2000, 1950, 5/2]⟩, ⟨"药明康德", [1500, 1450, 9/5]⟩,
                  ⟨"长春高新", [1000, 1020, -1/2]⟩] },
   { name := "电子", value := [120000, 125000, -4/5], stock_count := 3,
     children := [⟨"贵州茅台", [25000, 24800, 7/10]⟩, ⟨"宁德时代", [10000, 9700, 16/5]⟩,
                  ⟨"比亚迪", [8000, 8200, -19/10]⟩] }]

/-- The data `updateHotmapChart` feeds the treemap (lines 763-806): the
converted API data when non-empty, otherwise the embedded mock data. -/
def hotmapFinalData (r : FetchResult HierPayload) : List IndustryNode :=
  let chartData := convertApiDataToChartFormat (getIndustryStockHierarchy r)
  if 0 < chartData.length then chartData else mockData

/-- The assignment `value[3] = value[2] * 10` of `convertData`
(lines 844 and 851) on the length-3 value arrays this code builds: append
the derived visual value. (On a longer array JS would overwrite index 3 in
place; no such array is ever built here.) -/
def setVisual (v : List Rat) : List Rat :=
  v.take 3 ++ [((v.get? 2).getD 0) * 10]

/-- `convertData` (lines 838-858): derive the visual value of every
industry node and of every child that has a value. -/
def convertData (l : List IndustryNode) : List IndustryNode :=
  l.map (fun n =>
    { n with
      value := setVisual n.value,
      children := n.children.map (fun c => { c with value := setVisual c.value }) })

/-- What `updateHotmapChart` renders: `convertData` applied to the final
data. -/
def renderedHotmapData (r : FetchResult HierPayload) : List IndustryNode :=
  convertData (hotmapFinalData r)

/-- `updateHotmapChart` (lines 718-1127) as a state transition: a fetch
failure is swallowed inside `getIndustryStockHierarchy` (console.error
only), so the `error` ref is never assigned on that path; `hotmapLoading`
ends false via the finally clause. The second component is the treemap
data rendered. -/
def updateHotmapChartStep (st : PageState) (r : FetchResult HierPayload) :
    PageState × List IndustryNode :=
  ({ st with hotmapLoading := false }, renderedHotmapData r)

/-- The random offset `(Math.random() - 0.5) * 2` of line 319, with the
successive `Math.random()` results supplied as a stream. -/
def randomFactor (rs : Nat → Rat) (i : Nat) : Rat :=
  (rs i - 1/2) * 2

/-- An admissible `Math.random` stream: every value lies in [0, 1). -/
def validRandomStream (rs : Nat → Rat) : Prop :=
  ∀ i, 0 ≤ rs i ∧ rs i < 1

/-- The mock series of `updateIndustryChart` (lines 313-321) for an
industry without real trend data: one point per displayed date, each
`(avg_change * 100 + (Math.random() - 0.5) * 2).toFixed(2)`. -/
def mockSeriesData (avg_change : Rat) (recentDates : List String) (rs : Nat → Rat) :
    List JSVal :=
  (List.range recentDates.length).map (fun i =>
    JSVal.str (toFixed2 (avg_change * 100 + randomFactor rs i)))

/-- The series data `updateIndustryChart` builds for one displayed
industry (lines 270-333): the real per-date averages when there is any
real data and this industry has a trend with `stock_trends`, otherwise the
randomised mock series. -/
def industrySeriesData (allTrends : List (String × TrendResp)) (ind : IndustrySummary)
    (recentDates : List String) (rs : Nat → Rat) : List JSVal :=
  let hasRealData := 0 < allTrends.length
  match allTrends.lookup ind.industry with
  | some trend =>
      if hasRealData then
        match trend.stock_trends with
        | some sts => realSeriesData sts recentDates
        | none => mockSeriesData ind.avg_change recentDates rs
      else mockSeriesData ind.avg_change recentDates rs
  | none => mockSeriesData ind.avg_change recentDates rs

/-! Concrete inputs used by the witnesses. -/

/-- Witness trend data: two banks with a change on 2024-01-02, one with a
record only on 2024-01-03. -/
def wSts1 : StockTrends :=
  [("600000", [⟨"2024-01-02", none, some 2⟩]),
   ("600036", [⟨"2024-01-02", none, some 3⟩]),
   ("601398", [⟨"2024-01-03", none, some 7⟩])]

/-- Witness trend response for the bank industry. -/
def wTrend1 : TrendResp := ⟨some "银行", some 3, some wSts1⟩

/-- Witness trend map with just the bank industry. -/
def wAllTrends1 : List (String × TrendResp) := [("银行", wTrend1)]

/-- Witness industry row for the bank industry. -/
def wInd1 : IndustrySummary := ⟨"银行", 3, 1/100, 1/10⟩

/-- Witness page of four industries with distinct average changes. -/
def wPage2 : List IndustrySummary :=
  [⟨"银行", 1, 1, 0⟩, ⟨"电子", 1, 4, 0⟩, ⟨"医药生物", 1, 2, 0⟩, ⟨"计算机", 1, 3, 0⟩]

/-- The bank node of the converted mock treemap data. -/
def wBank3 : IndustryNode :=
  ⟨"银行", [100000, 95000, 1/2, 5], 3,
   [⟨"平安银行", [3000, 2800, 6/5, 12]⟩, ⟨"招商银行", [5000, 4800, 4/5, 8]⟩,
    ⟨"工商银行", [8000, 7900, 3/10, 3]⟩]⟩

/-- A fresh page state, as after setup. -/
def wSt0 : PageState := ⟨false, none, [], 0, none, [], none, "", false, false⟩

/-- Witness stock trend list with a single dated record. -/
def wSts6 : StockTrends := [("600000", [⟨"2024-01-02", none, some 1⟩])]

/-- Witness page for the trend-map claims. -/
def wIA6 : List IndustrySummary :=
  [⟨"银行", 1, 0, 0⟩, ⟨"电子", 1, 0, 0⟩, ⟨"计算机", 1, 0, 0⟩]

/-- Witness fetch outcomes: the bank fetch succeeds with trends, the
electronics fetch fails, the computing fetch succeeds without a
`stock_trends` field. -/
def wFetch6 : String → FetchResult TrendResp := fun ind =>
  if ind = "银行" then .ok ⟨none, some 1, some wSts6⟩
  else if ind = "电子" then .netError "Failed to fetch"
  else .ok ⟨none, none, none⟩

/-- The map entry the witness fetch produces for the bank industry. -/
def wEntry6 : TrendResp := ⟨some "银行", some 1, some wSts6⟩

/-- Witness industry-analysis response with one row and a total. -/
def wResp7 : AnalysisResp := ⟨some [⟨"银行", 42, 3/200, 1/50⟩], some 125⟩

/-- Witness state whose trend map has an entry with `stock_trends`. -/
def wSt8 : PageState :=
  ⟨false, none, [], 0, none, [("银行", ⟨some "银行", some 1, some wSts6⟩)], none, "", true, false⟩

/-- Witness trend data where the only record has no `change_percent`. -/
def wSts9 : StockTrends := [("600000", [⟨"2024-01-02", none, none⟩])]

/-! Helper lemmas. -/

/-- The fold of `sumCountAt`, with a generalised accumulator, computes the
sum and the number of the contributing changes. -/
theorem sumCount_foldl (date : String) (l : StockTrends) (a : Rat) (n : Nat) :
    l.foldl
      (fun acc s =>
        match dateContrib s.2 date with
        | some cp => (acc.1 + cp, acc.2 + 1)
        | none => acc)
      (a, n) =
    (a + (contributingChanges l date).sum, n + (contributingChanges l date).length) := by
  induction l generalizing a n with
  | nil => simp [contributingChanges]
  | cons s t ih =>
    simp only [List.foldl_cons]
    cases h : dateContrib s.2 date with
    | none =>
      rw [ih]
      simp [contributingChanges, List.filterMap_cons, h]
    | some cp =>
      rw [ih]
      simp only [contributingChanges, List.filterMap_cons, h, List.sum_cons, List.length_cons]
      refine Prod.ext ?_ ?_
      · simp; ring
      · simp; omega

/-- `sumCountAt` is the pair of the sum and the count of the contributing
changes. -/
theorem sumCountAt_eq (sts : StockTrends) (date : String) :
    sumCountAt sts date =
      ((contributingChanges sts date).sum, (contributingChanges sts date).length) := by
  have h := sumCount_foldl date sts 0 0
  simpa [sumCountAt] using h

/-- The number of contributing changes is the number of stocks whose
record found for the date has a defined change. -/
theorem contributingChanges_length (sts : StockTrends) (date : String) :
    (contributingChanges sts date).length =
      (sts.filter (fun s => (dateContrib s.2 date).isSome)).length := by
  induction sts with
  | nil => rfl
  | cons s t ih =>
    cases h : dateContrib s.2 date <;>
      simp [contributingChanges, List.filterMap_cons, List.filter_cons, h] at ih ⊢ <;>
      omega

/-! Theorems for the claims. -/

/-- C1: in `updateIndustryChart`, for every displayed industry with real
trend data and every date of the displayed window, the plotted value is
the arithmetic mean of `change_percent` over exactly those stocks of the
industry whose record for that date has `change_percent` defined — the
divisor is the number of such stocks, and stocks without a record (or
without a defined `change_percent`) for the date contribute to neither the
sum nor the count. -/
theorem plottedValueIsMeanOverContributingStocks
    (allTrends : List (String × TrendResp)) (ind : IndustrySummary)
    (recentDates : List String) (rs : Nat → Rat) (trend : TrendResp) (sts : StockTrends)
    (hl : allTrends.lookup ind.industry = some trend)
    (hst : trend.stock_trends = some sts)
    (date : String) (hdate : date ∈ recentDates)
    (h : 0 < (sts.filter (fun s => (dateContrib s.2 date).isSome)).length) :
    industrySeriesData allTrends ind recentDates rs = recentDates.map (plottedValue sts) ∧
    plottedValue sts date =
      JSVal.str (toFixed2 ((contributingChanges sts date).sum /
        ((sts.filter (fun s => (dateContrib s.2 date).isSome)).length : Rat))) := by
  constructor
  · have hne : 0 < allTrends.length := by
      cases allTrends with
      | nil => simp [List.lookup] at hl
      | cons p l => simp
    simp [industrySeriesData, hl, hst, hne, realSeriesData]
  · have hlen := contributingChanges_length sts date
    have hsum := sumCountAt_eq sts date
    have hpos : 0 < (contributingChanges sts date).length := by omega
    simp only [plottedValue, hsum, if_pos hpos]
    rw [hlen]

/-- C9: in `updateIndustryChart`, a date of the displayed window for which
no stock of the industry has a record with a defined `change_percent` is
plotted as the string "0" — an actual zero point — and not as a null
(skipped) point, contrary to the adjacent code comment. -/
theorem noDataDateRendersZeroString (sts : StockTrends) (date : String)
    (h : ∀ s ∈ sts, dateContrib s.2 date = none) :
    plottedValue sts date = JSVal.str "0" ∧ plottedValue sts date ≠ JSVal.null := by
  have hcc : contributingChanges sts date = [] := by
    simp only [contributingChanges, List.filterMap_eq_nil_iff]
    exact h
  have hsum := sumCountAt_eq sts date
  rw [hcc] at hsum
  constructor
  · simp [plottedValue, hsum]
  · simp [plottedValue, hsum]

/-- Witness for C1: on the bank industry of the witness data, the series
is the per-date map and the value plotted for 2024-01-02 is the mean 2.50
of the two contributing stocks (the third stock has no record for that
date and is ignored). -/
theorem plottedValueIsMeanOverContributingStocks_witness :
    plottedValue wSts1 "2024-01-02" =
      JSVal.str (toFixed2 ((contributingChanges wSts1 "2024-01-02").sum /
        ((wSts1.filter (fun s => (dateContrib s.2 "2024-01-02").isSome)).length : Rat))) ∧
    plottedValue wSts1 "2024-01-02" = JSVal.str "2.50" ∧
    industrySeriesData wAllTrends1 wInd1 ["2024-01-02"] (fun _ => 0) =
      [JSVal.str "2.50"] :=
  ⟨(plottedValueIsMeanOverContributingStocks wAllTrends1 wInd1 ["2024-01-02"] (fun _ => 0)
      wTrend1 wSts1 (by decide) rfl "2024-01-02" (by decide) (by decide)).2,
   by decide, by decide⟩

/-- Witness for C9: a window date for which the only stock has a record
without `change_percent` is plotted as the string "0", not null. -/
theorem noDataDateRendersZeroString_witness :
    plottedValue wSts9 "2024-01-02" = JSVal.str "0" ∧
    plottedValue wSts9 "2024-01-02" ≠ JSVal.null :=
  noDataDateRendersZeroString wSts9 "2024-01-02" (by decide)

/-- C2: the industries `updateIndustryChart` charts are, for the top3
(resp. bottom3) filter, exactly the first 3 of the page sorted by
`avg_change` descending (resp. ascending) — so together with the rest of
the sorted page they are a permutation of the page, and every charted
industry has an `avg_change` at least (resp. at most) that of every
industry left out — and for the all filter the whole current page. -/
theorem filterChartsTopBottomOrAll (filterType : String) (page : List IndustrySummary) :
    (filterType = "all" → industriesToShow filterType page = page) ∧
    (filterType = "top3" →
      industriesToShow filterType page = (sortedCopy "top3" page).take 3 ∧
      (industriesToShow filterType page ++ (sortedCopy "top3" page).drop 3).Perm page ∧
      ∀ a ∈ industriesToShow filterType page, ∀ b ∈ (sortedCopy "top3" page).drop 3,
        b.avg_change ≤ a.avg_change) ∧
    (filterType = "bottom3" →
      industriesToShow filterType page = (sortedCopy "bottom3" page).take 3 ∧
      (industriesToShow filterType page ++ (sortedCopy "bottom3" page).drop 3).Perm page ∧
      ∀ a ∈ industriesToShow filterType page, ∀ b ∈ (sortedCopy "bottom3" page).drop 3,
        a.avg_change ≤ b.avg_change) := by
  refine ⟨?_, ?_, ?_⟩
  · intro h
    subst h
    simp [industriesToShow]
  · intro h
    subst h
    have hshow : industriesToShow "top3" page = (sortedCopy "top3" page).take 3 := by
      simp [industriesToShow]
    have hsorted := List.sorted_insertionSort (fun a b => cmpLE "top3" a b = true) page
    have hperm := List.perm_insertionSort (fun a b => cmpLE "top3" a b = true) page
    have hsplit := List.take_append_drop 3 (sortedCopy "top3" page)
    refine ⟨hshow, ?_, ?_⟩
    · rw [hshow, hsplit]
      exact hperm
    · rw [hshow]
      intro a ha b hb
      have : List.Pairwise (fun a b => cmpLE "top3" a b = true)
          ((sortedCopy "top3" page).take 3 ++ (sortedCopy "top3" page).drop 3) := by
        rw [hsplit]
        exact hsorted
      have hab := (List.pairwise_append.mp this).2.2 a ha b hb
      simpa [cmpLE, sub_nonpos] using hab
  · intro h
    subst h
    have hshow : industriesToShow "bottom3" page = (sortedCopy "bottom3" page).take 3 := by
      simp [industriesToShow]
    have hsorted := List.sorted_insertionSort (fun a b => cmpLE "bottom3" a b = true) page
    have hperm := List.perm_insertionSort (fun a b => cmpLE "bottom3" a b = true) page
    have hsplit := List.take_append_drop 3 (sortedCopy "bottom3" page)
    refine ⟨hshow, ?_, ?_⟩
    · rw [hshow, hsplit]
      exact hperm
    · rw [hshow]
      intro a ha b hb
      have : List.Pairwise (fun a b => cmpLE "bottom3" a b = true)
          ((sortedCopy "bottom3" page).take 3 ++ (sortedCopy "bottom3" page).drop 3) := by
        rw [hsplit]
        exact hsorted
      have hab := (List.pairwise_append.mp this).2.2 a ha b hb
      simpa [cmpLE, sub_nonpos] using hab

/-- Witness for C2: on the witness page the top3 filter charts the three
industries with the largest average changes, in descending order, and the
all filter charts the whole page. -/
theorem filterChartsTopBottomOrAll_witness :
    industriesToShow "top3" wPage2 = (sortedCopy "top3" wPage2).take 3 ∧
    industriesToShow "top3" wPage2 =
      [⟨"电子", 1, 4, 0⟩, ⟨"计算机", 1, 3, 0⟩, ⟨"医药生物", 1, 2, 0⟩] ∧
    industriesToShow "all" wPage2 = wPage2 :=
  ⟨((filterChartsTopBottomOrAll "top3" wPage2).2.1 rfl).1,
   by decide,
   (filterChartsTopBottomOrAll "all" wPage2).1 rfl⟩

/-- On a length-3 value array, the `value[3] = value[2] * 10` assignment
yields a length-4 array whose entry 3 is entry 2 times 10. -/
theorem setVisual_spec (v : List Rat) (hv : v.length = 3) :
    (setVisual v).get? 3 = ((setVisual v).get? 2).map (· * 10) ∧
    (setVisual v).length = 4 := by
  match v, hv with
  | [a, b, c], _ => simp [setVisual]

/-- C3: for every node of the treemap data — every industry node and every
stock child node with a value array — `convertData` stores at index 3 of
the value array the node's `change_percent` (index 2) multiplied by 10,
yielding a 4-tuple [market cap, secondary metric, change, visual value]. -/
theorem treemapVisualValue (nodes : List IndustryNode)
    (hv : ∀ n ∈ nodes, n.value.length = 3 ∧ ∀ c ∈ n.children, c.value.length = 3) :
    ∀ n ∈ convertData nodes,
      (n.value.get? 3 = (n.value.get? 2).map (· * 10) ∧ n.value.length = 4) ∧
      ∀ c ∈ n.children, c.value.get? 3 = (c.value.get? 2).map (· * 10) ∧ c.value.length = 4 := by
  intro n hn
  obtain ⟨n₀, hn₀, rfl⟩ := List.mem_map.mp hn
  obtain ⟨hlen, hch⟩ := hv n₀ hn₀
  refine ⟨setVisual_spec n₀.value hlen, ?_⟩
  intro c hc
  obtain ⟨c₀, hc₀, rfl⟩ := List.mem_map.mp hc
  exact setVisual_spec c₀.value (hch c₀ hc₀)

/-- Witness for C3: the converted bank node of the mock data carries the
visual value 5 = 0.5 × 10 at index 3. -/
theorem treemapVisualValue_witness :
    wBank3 ∈ convertData mockData ∧
    wBank3.value.get? 3 = (wBank3.value.get? 2).map (· * 10) ∧
    wBank3.value.get? 3 = some 5 :=
  ⟨by decide,
   (treemapVisualValue mockData (by decide) wBank3 (by decide)).1.1,
   by decide⟩

/-- C4: whenever the hierarchy fetch fails (non-ok status or thrown error)
or the converted API data is empty, `updateHotmapChart` renders the
treemap from the embedded static mock data: the three industries 银行,
医药生物 and 电子 with three stocks each. -/
theorem hotmapFallsBackToMock (r : FetchResult HierPayload)
    (h : r.isFailure = true ∨ convertApiDataToChartFormat (getIndustryStockHierarchy r) = []) :
    hotmapFinalData r = mockData ∧
    renderedHotmapData r = convertData mockData ∧
    mockData.map (·.name) = ["银行", "医药生物", "电子"] ∧
    ∀ n ∈ mockData, n.children.length = 3 := by
  have hempty : convertApiDataToChartFormat (getIndustryStockHierarchy r) = [] := by
    rcases h with h | h
    · cases r with
      | ok p => simp [FetchResult.isFailure] at h
      | httpError s => rfl
      | netError m => rfl
    · exact h
  have hfinal : hotmapFinalData r = mockData := by
    simp [hotmapFinalData, hempty]
  refine ⟨hfinal, ?_, by decide, by decide⟩
  rw [renderedHotmapData, hfinal]

/-- Witness for C4: a network failure of the hierarchy fetch makes
`updateHotmapChart` render the mock data. -/
theorem hotmapFallsBackToMock_witness :
    hotmapFinalData (FetchResult.netError "Failed to fetch") = mockData ∧
    renderedHotmapData (FetchResult.netError "Failed to fetch") = convertData mockData :=
  ⟨(hotmapFallsBackToMock (FetchResult.netError "Failed to fetch") (Or.inl rfl)).1,
   (hotmapFallsBackToMock (FetchResult.netError "Failed to fetch") (Or.inl rfl)).2.1⟩

/-- The append-only fold that builds `trendsData` is a `filterMap`. -/
theorem trendsData_foldl (fetchTrend : String → FetchResult TrendResp)
    (pairs : List (String × Option TrendResp)) (acc : List (String × TrendResp)) :
    pairs.foldl
      (fun acc p =>
        match p.2 with
        | some tr =>
            if tr.stock_trends.isSome then acc ++ [(p.1, { tr with industry := some p.1 })]
            else acc
        | none => acc)
      acc =
    acc ++ pairs.filterMap (fun p =>
      match p.2 with
      | some tr =>
          if tr.stock_trends.isSome then some (p.1, { tr with industry := some p.1 })
          else none
      | none => none) := by
  induction pairs generalizing acc with
  | nil => simp
  | cons p t ih =>
    simp only [List.foldl_cons, List.filterMap_cons]
    cases hp : p.2 with
    | none => simp [hp, ih]
    | some tr =>
      by_cases hs : tr.stock_trends.isSome <;> simp [hp, hs, ih]

/-- `getAllIndustryTrends` in closed form: a `filterMap` over the names of
the current page. -/
theorem getAllIndustryTrends_eq (ia : List IndustrySummary)
    (fetchTrend : String → FetchResult TrendResp) :
    getAllIndustryTrends ia fetchTrend =
      (ia.map (·.industry)).filterMap (fun ind =>
        match fetchTrend ind with
        | .ok t =>
            if t.stock_trends.isSome then some (ind, { t with industry := some ind })
            else none
        | _ => none) := by
  unfold getAllIndustryTrends
  rw [trendsData_foldl fetchTrend]
  rw [List.nil_append]
  have hzip : ∀ (inds : List String),
      inds.zip (inds.map (fun ind =>
        match fetchTrend ind with
        | .ok t => some t
        | _ => none)) =
      inds.map (fun ind => (ind,
        match fetchTrend ind with
        | .ok t => some t
        | _ => none)) := by
    intro inds
    induction inds with
    | nil => rfl
    | cons a t ih => simp [ih]
  rw [hzip, List.filterMap_map]
  congr 1
  funext ind
  simp only [Function.comp]
  cases hf : fetchTrend ind with
  | ok t => by_cases hs : t.stock_trends.isSome <;> simp [hf, hs]
  | httpError s => simp [hf]
  | netError m => simp [hf]

/-- A `filterMap` with an if-guard returning the element is a `filter`. -/
theorem filterMap_guard {α : Type} (p : α → Bool) (l : List α) :
    l.filterMap (fun a => if p a then some a else none) = l.filter p := by
  induction l with
  | nil => rfl
  | cons a t ih => cases h : p a <;> simp [List.filterMap_cons, List.filter_cons, h, ih]

/-- C6: `getAllIndustryTrends` issues one trend fetch per displayed
industry and joins them; the resulting map holds exactly the industries
whose fetch succeeded with a `stock_trends` field — keyed by and carrying
the original industry name, with the successful payload — and an industry
whose fetch failed (or lacked `stock_trends`) is absent. -/
theorem allIndustryTrendsExactlySuccessfulFetches
    (ia : List IndustrySummary) (fetchTrend : String → FetchResult TrendResp) :
    (getAllIndustryTrends ia fetchTrend).map Prod.fst =
      (ia.map (·.industry)).filter (fun ind => trendOk fetchTrend ind) ∧
    (∀ p ∈ getAllIndustryTrends ia fetchTrend,
      p.2.industry = some p.1 ∧
      ∃ t, fetchTrend p.1 = .ok t ∧ t.stock_trends.isSome ∧
        p.2 = { t with industry := some p.1 }) ∧
    (∀ ind, trendOk fetchTrend ind = false →
      ∀ p ∈ getAllIndustryTrends ia fetchTrend, p.1 ≠ ind) := by
  have hkeys : (getAllIndustryTrends ia fetchTrend).map Prod.fst =
      (ia.map (·.industry)).filter (fun ind => trendOk fetchTrend ind) := by
    rw [getAllIndustryTrends_eq, List.map_filterMap]
    rw [← filterMap_guard (fun ind => trendOk fetchTrend ind) (ia.map (·.industry))]
    congr 1
    funext ind
    cases hf : fetchTrend ind with
    | ok t => by_cases hs : t.stock_trends.isSome <;> simp [trendOk, hf, hs]
    | httpError s => simp [trendOk, hf]
    | netError m => simp [trendOk, hf]
  refine ⟨hkeys, ?_, ?_⟩
  · intro p hp
    rw [getAllIndustryTrends_eq] at hp
    obtain ⟨ind, _hind, hsome⟩ := List.mem_filterMap.mp hp
    cases hf : fetchTrend ind with
    | ok t =>
      rw [hf] at hsome
      have hred : (if t.stock_trends.isSome then
          some (ind, { t with industry := some ind }) else none) = some p := hsome
      by_cases hs : t.stock_trends.isSome
      · rw [if_pos hs] at hred
        obtain rfl := Option.some_injective _ hred
        exact ⟨rfl, t, hf, hs, rfl⟩
      · rw [if_neg hs] at hred
        exact absurd hred (by simp)
    | httpError s =>
      rw [hf] at hsome
      have hred : (none : Option (String × TrendResp)) = some p := hsome
      exact absurd hred (by simp)
    | netError m =>
      rw [hf] at hsome
      have hred : (none : Option (String × TrendResp)) = some p := hsome
      exact absurd hred (by simp)
  · intro ind hbad p hp heq
    have hmem : p.1 ∈ (getAllIndustryTrends ia fetchTrend).map Prod.fst :=
      List.mem_map.mpr ⟨p, hp, rfl⟩
    rw [hkeys] at hmem
    have := (List.mem_filter.mp hmem).2
    rw [heq, hbad] at this
    exact absurd this (by simp)

/-- Witness for C6: of the three witness industries, only the bank — whose
fetch succeeds with `stock_trends` — ends up in the map, keyed by and
carrying its name; the electronics fetch fails and the computing response
lacks `stock_trends`. -/
theorem allIndustryTrendsExactlySuccessfulFetches_witness :
    (getAllIndustryTrends wIA6 wFetch6).map Prod.fst =
      (wIA6.map (·.industry)).filter (fun ind => trendOk wFetch6 ind) ∧
    (getAllIndustryTrends wIA6 wFetch6) = [("银行", wEntry6)] ∧
    wEntry6.industry = some "银行" :=
  ⟨(allIndustryTrendsExactlySuccessfulFetches wIA6 wFetch6).1,
   by decide,
   ((allIndustryTrendsExactlySuccessfulFetches wIA6 wFetch6).2.1
      ("银行", wEntry6) (by decide)).1⟩

/-- C7: a successful industry-analysis response whose `data` field is an
array of N summaries makes `industryAnalysis` exactly those N elements
verbatim — so the table renders N rows — and `totalIndustries` the
response's `total`; a response whose `data` field is not an array resets
`industryAnalysis` to the empty list. -/
theorem analysisDataStoredVerbatim (st : PageState) (resp : AnalysisResp) :
    (∀ l, resp.data = some l →
      (getIndustryAnalysisStep st (.ok resp)).industryAnalysis = l ∧
      tableRows (getIndustryAnalysisStep st (.ok resp)) = l.length) ∧
    (∀ t, resp.total = some t →
      (getIndustryAnalysisStep st (.ok resp)).totalIndustries = t) ∧
    (resp.data = none → (getIndustryAnalysisStep st (.ok resp)).industryAnalysis = []) := by
  refine ⟨?_, ?_, ?_⟩
  · intro l hl
    simp [getIndustryAnalysisStep, tableRows, hl]
  · intro t ht
    by_cases h0 : t = 0 <;> simp [getIndustryAnalysisStep, jsOrNat, ht, h0]
  · intro hd
    simp [getIndustryAnalysisStep, hd]

/-- Witness for C7: the one-row witness response is stored verbatim, the
table renders one row, and `totalIndustries` becomes 125. -/
theorem analysisDataStoredVerbatim_witness :
    (getIndustryAnalysisStep wSt0 (.ok wResp7)).industryAnalysis =
      [⟨"银行", 42, 3/200, 1/50⟩] ∧
    tableRows (getIndustryAnalysisStep wSt0 (.ok wResp7)) = 1 ∧
    (getIndustryAnalysisStep wSt0 (.ok wResp7)).totalIndustries = 125 :=
  ⟨((analysisDataStoredVerbatim wSt0 wResp7).1 [⟨"银行", 42, 3/200, 1/50⟩] rfl).1,
   ((analysisDataStoredVerbatim wSt0 wResp7).1 [⟨"银行", 42, 3/200, 1/50⟩] rfl).2,
   (analysisDataStoredVerbatim wSt0 wResp7).2.1 125 rfl⟩

/-- C8: for every industry whose trend data is present in
`allIndustryTrends` with a `stock_trends` field, `analyzeIndustry` never
stores a successful result: evaluating the result object applies
`generateIndustrySummary` to the unbound identifier `positiveRate`, the
raised ReferenceError lands in the catch branch which stores
`{industry, error: 分析行业失败}`, and the finally clause still resets
`analysisLoading` to false. -/
theorem analyzeIndustryNeverSucceeds (st : PageState) (industry : String) (t : TrendResp)
    (hl : st.allIndustryTrends.lookup industry = some t)
    (hs : t.stock_trends.isSome = true) :
    (analyzeIndustryStep st industry).industryAnalysisResult =
      some ⟨industry, some "分析行业失败", none⟩ ∧
    (analyzeIndustryStep st industry).analysisLoading = false := by
  obtain ⟨sts, hsts⟩ := Option.isSome_iff_exists.mp hs
  constructor <;>
    simp [analyzeIndustryStep, hl, hsts, analyzeIndustryTryBlock]

/-- Witness for C8: on the witness state, whose trend map has a bank entry
with `stock_trends`, analysing the bank industry yields the failure object
and clears the loading flag. -/
theorem analyzeIndustryNeverSucceeds_witness :
    (analyzeIndustryStep wSt8 "银行").industryAnalysisResult =
      some ⟨"银行", some "分析行业失败", none⟩ ∧
    (analyzeIndustryStep wSt8 "银行").analysisLoading = false :=
  analyzeIndustryNeverSucceeds wSt8 "银行" ⟨some "银行", some 1, some wSts6⟩
    (by decide) (by decide)

/-- Counterexample to C5 as stated: the hierarchy fetch can fail without
any user-visible error message — `updateHotmapChart` on a fresh state and
a network failure leaves `error` at `none` (the failure is only logged to
the console inside `getIndustryStockHierarchy`) while silently rendering
the mock data. -/
theorem hierarchyFailureIsSilent :
    (FetchResult.netError "Failed to fetch" : FetchResult HierPayload).isFailure = true ∧
    (updateHotmapChartStep wSt0 (FetchResult.netError "Failed to fetch")).1.error = none ∧
    (updateHotmapChartStep wSt0 (FetchResult.netError "Failed to fetch")).2 =
      convertData mockData :=
  ⟨rfl, rfl, rfl⟩

/-- C5 as amended: every request failure is caught per-request and
degrades to an empty list or to mock/fallback data; the industry-analysis,
single-trend and LLM fetches surface a user-visible message — in
particular a failed industry-analysis fetch sets `error` and resets
`industryAnalysis` to `[]` and `totalIndustries` to 0 — but the hierarchy
fetch and the per-industry trend fetches of `getAllIndustryTrends` only
log to the console: they leave `error` untouched (resp. at `none`) and
fall back to mock data (resp. drop the industry). -/
theorem perRequestFailureHandling (st : PageState) (m : String) (s : Nat)
    (industry : String) :
    ((getIndustryAnalysisStep st (.netError m)).error =
        some ("获取行业分析失败: " ++ m) ∧
      (getIndustryAnalysisStep st (.netError m)).industryAnalysis = [] ∧
      (getIndustryAnalysisStep st (.netError m)).totalIndustries = 0) ∧
    ((getIndustryAnalysisStep st (.httpError s)).error =
        some ("获取行业分析失败: HTTP error! status: " ++ toString s) ∧
      (getIndustryAnalysisStep st (.httpError s)).industryAnalysis = [] ∧
      (getIndustryAnalysisStep st (.httpError s)).totalIndustries = 0) ∧
    (getIndustryTrendStep st (.netError m)).error =
      some ("获取行业趋势失败: " ++ m) ∧
    ((analyzeIndustryWithLLMStep st industry (.netError m)).industryAnalysisResult =
        some ⟨industry, some ("大模型分析失败: " ++ m), none⟩ ∧
      (analyzeIndustryWithLLMStep st industry (.netError m)).analysisLoading = false) ∧
    ((updateHotmapChartStep st (.netError m)).1.error = st.error ∧
      (updateHotmapChartStep st (.netError m)).2 = convertData mockData) ∧
    ((getAllIndustryTrendsStep st (fun _ => .netError m)).error = none ∧
      (getAllIndustryTrendsStep st (fun _ => .netError m)).allIndustryTrends =
        (if 0 < st.industryAnalysis.length then [] else st.allIndustryTrends)) := by
  refine ⟨⟨rfl, rfl, rfl⟩, ⟨rfl, rfl, rfl⟩, rfl, ⟨rfl, rfl⟩, ⟨rfl, rfl⟩, ?_, ?_⟩
  · unfold getAllIndustryTrendsStep
    by_cases h : 0 < st.industryAnalysis.length <;> simp [h]
  · unfold getAllIndustryTrendsStep
    by_cases h : 0 < st.industryAnalysis.length
    · rw [if_pos h, if_pos h]
      show getAllIndustryTrends st.industryAnalysis (fun _ => .netError m) = []
      rw [getAllIndustryTrends_eq]
      simp
    · rw [if_neg h, if_neg h]

/-- C10 counterexample: the claim bounds the random offset strictly
between -1 and 1, but `Math.random()` can return exactly 0, making
`(Math.random() - 0.5) * 2` exactly -1: on the constant-zero admissible
stream the offset is -1, not strictly above it, and the mock series of a
flat industry plots "-1.00". -/
theorem mockOffsetCanReachMinusOne :
    (0 ≤ (0 : Rat) ∧ (0 : Rat) < 1) ∧
    randomFactor (fun _ => 0) 0 = -1 ∧
    ¬(-1 < randomFactor (fun _ => 0) 0) ∧
    industrySeriesData [] ⟨"银行", 3, 0, 0⟩ ["2024-01-02"] (fun _ => 0) =
      [JSVal.str "-1.00"] := by
  refine ⟨by norm_num, ?_, ?_, ?_⟩
  · show ((0 : Rat) - 1/2) * 2 = -1
    norm_num
  · show ¬(-1 < ((0 : Rat) - 1/2) * 2)
    norm_num
  · decide

/-- C10 as amended: for an industry shown on the chart with no entry in
`allIndustryTrends`, each plotted point is `avg_change * 100` plus the
offset `(Math.random() - 0.5) * 2`, which lies in the half-open interval
[-1, 1) — it equals -1 exactly when `Math.random()` returns 0; two
admissible random streams can produce different series from identical
state, so the chart is not a deterministic function of the API
responses. -/
theorem mockSeriesOffsetBoundsAndNondeterminism
    (allTrends : List (String × TrendResp)) (ind : IndustrySummary)
    (recentDates : List String) (rs : Nat → Rat)
    (hv : validRandomStream rs)
    (habs : allTrends.lookup ind.industry = none) :
    industrySeriesData allTrends ind recentDates rs =
      (List.range recentDates.length).map (fun i =>
        JSVal.str (toFixed2 (ind.avg_change * 100 + randomFactor rs i))) ∧
    (∀ i, -1 ≤ randomFactor rs i ∧ randomFactor rs i < 1) ∧
    ∃ rs1 rs2 : Nat → Rat, validRandomStream rs1 ∧ validRandomStream rs2 ∧
      industrySeriesData [] ⟨"银行", 3, 0, 0⟩ ["2024-01-02"] rs1 ≠
        industrySeriesData [] ⟨"银行", 3, 0, 0⟩ ["2024-01-02"] rs2 := by
  refine ⟨?_, ?_, ?_⟩
  · simp [industrySeriesData, habs, mockSeriesData]
  · intro i
    obtain ⟨h0, h1⟩ := hv i
    unfold randomFactor
    constructor <;> linarith
  · refine ⟨fun _ => 0, fun _ => 1/2, fun i => by norm_num, fun i => by norm_num, ?_⟩
    decide

/-- Witness for the amended C10: on an admissible constant stream the
industry absent from the trend map gets the mock series, here a single
point "0.00" for a flat industry with `Math.random() = 0.5`. -/
theorem mockSeriesOffsetBoundsAndNondeterminism_witness :
    industrySeriesData [] ⟨"银行", 3, 0, 0⟩ ["2024-01-02"] (fun _ => 1/2) =
      (List.range 1).map (fun i =>
        JSVal.str (toFixed2 ((0 : Rat) * 100 + randomFactor (fun _ => 1/2) i))) ∧
    industrySeriesData [] ⟨"银行", 3, 0, 0⟩ ["2024-01-02"] (fun _ => 1/2) =
      [JSVal.str "0.00"] :=
  ⟨(mockSeriesOffsetBoundsAndNondeterminism [] ⟨"银行", 3, 0, 0⟩ ["2024-01-02"]
      (fun _ => 1/2) (fun i => by norm_num) rfl).1,
   by decide⟩

end DataPage
